import Mathlib

/-!
Shallow embedding of the two source files of `deep_research_paper_chat`:

* `src/crewai_flow_workshop1/main.py` — the per-turn HR flow: `Message`,
  `RouterIntent`, `FlowState`, the `@start` step `starting_flow`, the
  `@router` step `routing_intent` (classifier call + last-non-empty-wins
  merge of collected fields), and the three branch handlers.
* `research_frontend/api.py` — the Streamlit-side API client: secret
  lookup, configuration fail-fast, `api_request`, `kickoff_research`,
  `poll_status` (with JSON result normalization) and `extract_response`.

External effects are made explicit parameters: the LLM classifier result
becomes an `Except` value, the wall clock a `now : String` argument, the
HTTP layer a `Net` oracle whose `none` answer models a raised
`requests.exceptions.RequestException`.
-/

namespace DeepResearch

/-- A JSON value as Python's `json` module decodes one.  Numbers are
modelled as integers (the payloads exchanged by this client never carry
fractional numbers). -/
inductive Json where
  | null : Json
  | bool : Bool → Json
  | num : Int → Json
  | str : String → Json
  | arr : List Json → Json
  | obj : List (String × Json) → Json

/-- Python truthiness (`bool(v)`) of a decoded JSON value: `None`, `False`,
`0`, `""`, `[]` and `{}` are falsy, everything else truthy. -/
def pyTruthy : Json → Bool
  | .null => false
  | .bool b => b
  | .num n => n != 0
  | .str s => !s.isEmpty
  | .arr xs => !xs.isEmpty
  | .obj fs => !fs.isEmpty

/-- `d.get(k)` on a Python dict decoded from JSON: the value stored under
`k`, or `None` when absent.  Duplicate keys in the source text end up with
the last occurrence winning (as in `dict` insertion), so lookup scans from
the right. -/
def dictGet (fs : List (String × Json)) (k : String) : Option Json :=
  (fs.reverse.find? (fun p => p.1 == k)).map (fun p => p.2)

/-- Python `==` between a decoded value and a string literal. -/
def Json.isStr (j : Json) (s : String) : Bool :=
  match j with
  | .str t => t == s
  | _ => false

/-! ### A JSON text decoder (`json.loads`)

A recursive-descent parser over the character list, fuelled by the input
length.  It accepts the JSON fragment this client exchanges (strings with
the simple escapes, integers, literals, arrays, objects) and rejects
everything else, as `json.loads` raises `JSONDecodeError`. -/

def isJsonWs (c : Char) : Bool :=
  c == ' ' || c == '\t' || c == '\n' || c == '\r'

def skipWs (cs : List Char) : List Char :=
  cs.dropWhile isJsonWs

/-- Parse the body of a JSON string after the opening quote, returning the
decoded text and the remainder after the closing quote. -/
def parseStringBody (fuel : Nat) (cs : List Char) (acc : List Char) :
    Option (String × List Char) :=
  match fuel with
  | 0 => none
  | fuel + 1 =>
    match cs with
    | [] => none
    | c :: rest =>
      if c == '"' then some (String.mk acc.reverse, rest)
      else if c == '\\' then
        match rest with
        | [] => none
        | e :: rest2 =>
          let esc : Option Char :=
            if e == '"' then some '"'
            else if e == '\\' then some '\\'
            else if e == '/' then some '/'
            else if e == 'n' then some '\n'
            else if e == 't' then some '\t'
            else if e == 'r' then some '\r'
            else if e == 'b' then some (Char.ofNat 8)
            else if e == 'f' then some (Char.ofNat 12)
            else none
          match esc with
          | some d => parseStringBody fuel rest2 (d :: acc)
          | none => none
      else parseStringBody fuel rest (c :: acc)

/-- Parse a run of decimal digits into a natural number. -/
def parseNat (cs : List Char) : Option (Nat × List Char) :=
  let ds := cs.takeWhile Char.isDigit
  if ds.isEmpty then none
  else some (ds.foldl (fun a c => a * 10 + (c.toNat - 48)) 0, cs.dropWhile Char.isDigit)

mutual

/-- Parse one JSON value (after optional leading whitespace). -/
def parseValue (fuel : Nat) (cs : List Char) : Option (Json × List Char) :=
  match fuel with
  | 0 => none
  | fuel + 1 =>
    match skipWs cs with
    | [] => none
    | c :: rest =>
      if c == '"' then
        match parseStringBody (rest.length + 1) rest [] with
        | some (s, r) => some (Json.str s, r)
        | none => none
      else if c == '{' then
        match skipWs rest with
        | '}' :: r => some (Json.obj [], r)
        | other => parseObjMembers fuel other []
      else if c == '[' then
        match skipWs rest with
        | ']' :: r => some (Json.arr [], r)
        | other => parseArrItems fuel other []
      else if c == 't' then
        match rest with
        | 'r' :: 'u' :: 'e' :: r => some (Json.bool true, r)
        | _ => none
      else if c == 'f' then
        match rest with
        | 'a' :: 'l' :: 's' :: 'e' :: r => some (Json.bool false, r)
        | _ => none
      else if c == 'n' then
        match rest with
        | 'u' :: 'l' :: 'l' :: r => some (Json.null, r)
        | _ => none
      else if c == '-' then
        match parseNat rest with
        | some (n, r) => some (Json.num (-(n : Int)), r)
        | none => none
      else
        match parseNat (c :: rest) with
        | some (n, r) => some (Json.num (n : Int), r)
        | none => none

/-- Parse the members of a JSON object after the opening brace (nonempty
case), accumulating in reverse. -/
def parseObjMembers (fuel : Nat) (cs : List Char) (acc : List (String × Json)) :
    Option (Json × List Char) :=
  match fuel with
  | 0 => none
  | fuel + 1 =>
    match skipWs cs with
    | '"' :: rest =>
      match parseStringBody (rest.length + 1) rest [] with
      | none => none
      | some (k, r1) =>
        match skipWs r1 with
        | ':' :: r2 =>
          match parseValue fuel r2 with
          | none => none
          | some (v, r3) =>
            match skipWs r3 with
            | ',' :: r4 => parseObjMembers fuel r4 ((k, v) :: acc)
            | '}' :: r4 => some (Json.obj ((k, v) :: acc).reverse, r4)
            | _ => none
        | _ => none
    | _ => none

/-- Parse the items of a JSON array after the opening bracket (nonempty
case), accumulating in reverse. -/
def parseArrItems (fuel : Nat) (cs : List Char) (acc : List Json) :
    Option (Json × List Char) :=
  match fuel with
  | 0 => none
  | fuel + 1 =>
    match parseValue fuel cs with
    | none => none
    | some (v, r) =>
      match skipWs r with
      | ',' :: r2 => parseArrItems fuel r2 (v :: acc)
      | ']' :: r2 => some (Json.arr (v :: acc).reverse, r2)
      | _ => none

end

/-- `json.loads`: decode a full JSON document, requiring nothing but
whitespace after the value; `none` models a raised `JSONDecodeError`. -/
def json_loads (s : String) : Option Json :=
  match parseValue (s.length + 2) s.data with
  | some (v, rest) => if (skipWs rest).isEmpty then some v else none
  | none => none

/-! ### The HR flow (`src/crewai_flow_workshop1/main.py`) -/

/-- `class Message(BaseModel)`: one chat message.  The `timestamp` default
(`datetime.now().isoformat()`) is a wall-clock read, so constructors take
it as an explicit argument. -/
structure Message where
  role : String
  content : String
  timestamp : String
deriving DecidableEq

/-- The `user_intent` literal of `RouterIntent`:
`Literal["job_creation", "conversation", "refinement"]`. -/
inductive UserIntent where
  | job_creation
  | conversation
  | refinement
deriving DecidableEq

/-- `class RouterIntent(BaseModel)`: what the classifier LLM returns.
`Optional[str]` fields become `Option String`. -/
structure RouterIntent where
  user_intent : UserIntent
  job_role : Option String := none
  location : Option String := none
  company_name : Option String := none
  feedback : Option String := none
  reasoning : String
deriving DecidableEq

/-- `class FlowState(BaseModel)`: the persisted per-conversation state. -/
structure FlowState where
  user_message : String :=
    "HI, create a job posting for a data engineer based in NYC for Johnson & Johnson"
  message_history : List Message := []
  job_role : Option String := none
  location : Option String := none
  company_name : Option String := none
  job_posting : Option String := none
  feedback : Option String := none
deriving DecidableEq

/-- Python truthiness of an `Optional[str]` field: `None` and `""` are
falsy, any other string truthy. -/
def truthyStr : Option String → Bool
  | none => false
  | some s => !s.isEmpty

/-- `HrJobCreationFlow.add_message`: build a `Message` and append it to
`self.state.message_history` (`now` is the clock read for the timestamp
default). -/
def add_message (s : FlowState) (role content now : String) : FlowState :=
  { s with message_history := s.message_history ++ [Message.mk role content now] }

/-- `@start() starting_flow`: append the user message to the history when
it is truthy (non-empty), and return it. -/
def starting_flow (s : FlowState) (now : String) : FlowState × String :=
  (if s.user_message.isEmpty then s else add_message s "user" s.user_message now,
   s.user_message)

/-- The state-accumulation block of `routing_intent` (lines 103–111 of
`main.py`): each field of the classifier response overwrites the stored
one only when it is truthy. -/
def merge_intent (s : FlowState) (r : RouterIntent) : FlowState :=
  let s := if truthyStr r.job_role then { s with job_role := r.job_role } else s
  let s := if truthyStr r.location then { s with location := r.location } else s
  let s := if truthyStr r.company_name then { s with company_name := r.company_name } else s
  let s := if truthyStr r.feedback then { s with feedback := r.feedback } else s
  s

/-- Modelled from the spec: the error taxonomy entry for a failed or
unparseable classification.  The source has no such class of its own — the
exception raised inside `llm.call` (or the attribute error on an
unparseable response shape) simply propagates out of `routing_intent`; the
spec names that outcome `ClassificationError`. -/
inductive ClassificationError where
  | llmFailure (message : String)
  | unparseableShape (raw : String)
deriving DecidableEq

/-- `@router(starting_flow) routing_intent`: the classifier call is the
explicit `resp` argument (`Except.error` models `llm.call` raising, or the
response shape failing attribute access — both happen before any state
write, since `if response.job_role:` is the first field access).  Returns
the state after the step together with the outcome: the chosen branch
label on success, the propagated error otherwise. -/
def routing_intent (s : FlowState)
    (resp : Except ClassificationError RouterIntent) :
    FlowState × Except ClassificationError UserIntent :=
  match resp with
  | .error e => (s, .error e)
  | .ok r => (merge_intent s r, .ok r.user_intent)

/-- `@listen("conversation") follow_up_conversation`: the LLM reply
(`response`, an external call) is appended as an assistant message and
returned. -/
def follow_up_conversation (s : FlowState) (response now : String) :
    FlowState × String :=
  (add_message s "assistant" response now, response)

/-- `@listen("job_creation") handle_job_creation`: the crew result
(`response = result.raw`, an external call) becomes the job posting and is
appended as an assistant message. -/
def handle_job_creation (s : FlowState) (response now : String) :
    FlowState × String :=
  (add_message { s with job_posting := some response } "assistant" response now,
   response)

/-- `@listen("refinement") handle_refinement`: the editor-agent result
(`response = result.raw`, an external call) replaces the job posting and
is appended as an assistant message. -/
def handle_refinement (s : FlowState) (response now : String) :
    FlowState × String :=
  (add_message { s with job_posting := some response } "assistant" response now,
   response)

/-! ### The API client (`research_frontend/api.py`) -/

/-- The two secret sources read by `_get_secret`: `st.secrets` and
`os.environ`, each a finite key/value table. -/
structure Config where
  secrets : List (String × String)
  env : List (String × String)

/-- `_get_secret`: try `st.secrets[key]`; on `KeyError`/`FileNotFoundError`
fall back to `os.environ.get(key)`. -/
def _get_secret (cfg : Config) (key : String) : Option String :=
  match cfg.secrets.lookup key with
  | some v => some v
  | none => cfg.env.lookup key

/-- The configuration failures surfaced by `st.error` + `st.stop()`
(`st.stop` aborts the script run before anything further executes). -/
inductive ConfigurationError where
  | missingApiUrl
  | missingApiToken
deriving DecidableEq

/-- `url.rstrip("/")`: drop trailing slashes. -/
def rstripSlash (s : String) : String :=
  String.mk ((s.data.reverse.dropWhile (fun c => c == '/')).reverse)

/-- `_api_url`: the configured base URL with trailing slashes stripped, or
a configuration stop when `CRW_API_URL` is missing or empty (`if not url`). -/
def _api_url (cfg : Config) : Except ConfigurationError String :=
  match _get_secret cfg "CRW_API_URL" with
  | none => .error .missingApiUrl
  | some url => if url.isEmpty then .error .missingApiUrl else .ok (rstripSlash url)

/-- `_headers`: the auth headers, or a configuration stop when
`CRW_API_TOKEN` is missing or empty (`if not token`). -/
def _headers (cfg : Config) : Except ConfigurationError (List (String × String)) :=
  match _get_secret cfg "CRW_API_TOKEN" with
  | none => .error .missingApiToken
  | some token =>
    if token.isEmpty then .error .missingApiToken
    else .ok [("Authorization", "Bearer " ++ token),
              ("Content-Type", "application/json")]

/-- The HTTP method argument of `api_request` at its two call sites. -/
inductive Method where
  | GET
  | POST
deriving DecidableEq

/-- The HTTP layer as an oracle: `respond method url body` is the decoded
JSON object of a successful 2xx response (`api_request` is annotated
`-> dict | None`, so the body is a JSON object), and `none` models any
raised `requests.exceptions.RequestException` — connection failure, a
non-2xx status from `raise_for_status`, or an undecodable body from
`resp.json()`. -/
structure Net where
  respond : Method → String → Option Json → Option (List (String × Json))

/-- `api_request`: build the URL from `_api_url()` (which can stop the
script), evaluate `_headers()` (which can stop the script), then perform
the request; a `RequestException` is caught, reported with `st.error`, and
turned into `None`. -/
def api_request (cfg : Config) (endpoint : String) (method : Method)
    (data : Option Json) (net : Net) :
    Except ConfigurationError (Option (List (String × Json))) :=
  match _api_url cfg with
  | .error e => .error e
  | .ok base =>
    match _headers cfg with
    | .error e => .error e
    | .ok _ => .ok (net.respond method (base ++ "/" ++ endpoint) data)

/-- The kickoff request body built by `kickoff_research`:
`{"inputs": {"user_message": ..., "id": ...}}`. -/
def kickoff_payload (user_message chat_id : String) : Json :=
  Json.obj [("inputs", Json.obj [("user_message", Json.str user_message),
                                 ("id", Json.str chat_id)])]

/-- `kickoff_research`: POST the payload to `kickoff`; when the response
dict is truthy and carries a `"kickoff_id"` key, return that value,
otherwise `None`. -/
def kickoff_research (cfg : Config) (user_message chat_id : String) (net : Net) :
    Except ConfigurationError (Option Json) :=
  match api_request cfg "kickoff" Method.POST
      (some (kickoff_payload user_message chat_id)) net with
  | .error e => .error e
  | .ok result =>
    .ok (match result with
      | some fs => if fs.isEmpty then none else dictGet fs "kickoff_id"
      | none => none)

/-- The dict returned by `poll_status`. -/
structure PollStatus where
  state : Json
  result : Option Json
  last_executed_task : Option Json

/-- The status `poll_status` synthesizes when `api_request` returned a
falsy value: `{"state": "ERROR", "result": None, "last_executed_task": None}`. -/
def pollErrorStatus : PollStatus :=
  { state := Json.str "ERROR", result := none, last_executed_task := none }

/-- The body of `poll_status` after the request: `data` is what
`api_request` returned (`None` on transport failure).  `if not data` also
catches an empty dict; on `state == "SUCCESS"` with a truthy raw result, a
string result is JSON-decoded (falling back to `{"response": raw}`), a
dict result is taken as-is, and any other type leaves `result = None`. -/
def poll_status_core (data : Option (List (String × Json))) : PollStatus :=
  match data with
  | none => pollErrorStatus
  | some fs =>
    if fs.isEmpty then pollErrorStatus
    else
      let state := (dictGet fs "state").getD (Json.str "UNKNOWN")
      let last_task := dictGet fs "last_executed_task"
      let parsed_result : Option Json :=
        match dictGet fs "result" with
        | none => none
        | some raw =>
          if state.isStr "SUCCESS" && pyTruthy raw then
            match raw with
            | Json.str s =>
              match json_loads s with
              | some v => some v
              | none => some (Json.obj [("response", Json.str s)])
            | Json.obj l => some (Json.obj l)
            | _ => none
          else none
      { state := state, result := parsed_result, last_executed_task := last_task }

/-- `poll_status`: GET `status/<kickoff_id>` and normalize per
`poll_status_core`. -/
def poll_status (cfg : Config) (kickoff_id : String) (net : Net) :
    Except ConfigurationError PollStatus :=
  match api_request cfg ("status/" ++ kickoff_id) Method.GET none net with
  | .error e => .error e
  | .ok data => .ok (poll_status_core data)

/-- `extract_response`: `None` for a falsy input, else
`status_result.get("response") or status_result.get("chat_response")` —
Python `or` returns the first operand when truthy, otherwise the second
operand unchanged. -/
def extract_response (status_result : Option (List (String × Json))) :
    Option Json :=
  match status_result with
  | none => none
  | some fs =>
    if fs.isEmpty then none
    else
      match dictGet fs "response" with
      | some v => if pyTruthy v then some v else dictGet fs "chat_response"
      | none => dictGet fs "chat_response"

/-- Modelled from the spec (a refinement comparison target, not source
code): "given a decoded result object, return the first non-empty value
among a fixed, ordered list of known field aliases, else absent" — aliases
`response` then `chat_response`. -/
def extract_response_spec (status_result : Option (List (String × Json))) :
    Option Json :=
  match status_result with
  | none => none
  | some fs =>
    match dictGet fs "response" with
    | some v =>
      if pyTruthy v then some v
      else
        match dictGet fs "chat_response" with
        | some w => if pyTruthy w then some w else none
        | none => none
    | none =>
      match dictGet fs "chat_response" with
      | some w => if pyTruthy w then some w else none
      | none => none

/-! ### Helper lemmas about the merge step -/

lemma merge_intent_job_role (s : FlowState) (r : RouterIntent) :
    (merge_intent s r).job_role
      = if truthyStr r.job_role then r.job_role else s.job_role := by
  unfold merge_intent
  by_cases h1 : truthyStr r.job_role <;> by_cases h2 : truthyStr r.location
    <;> by_cases h3 : truthyStr r.company_name
    <;> by_cases h4 : truthyStr r.feedback <;> simp [h1, h2, h3, h4]

lemma merge_intent_location (s : FlowState) (r : RouterIntent) :
    (merge_intent s r).location
      = if truthyStr r.location then r.location else s.location := by
  unfold merge_intent
  by_cases h1 : truthyStr r.job_role <;> by_cases h2 : truthyStr r.location
    <;> by_cases h3 : truthyStr r.company_name
    <;> by_cases h4 : truthyStr r.feedback <;> simp [h1, h2, h3, h4]

lemma merge_intent_company_name (s : FlowState) (r : RouterIntent) :
    (merge_intent s r).company_name
      = if truthyStr r.company_name then r.company_name else s.company_name := by
  unfold merge_intent
  by_cases h1 : truthyStr r.job_role <;> by_cases h2 : truthyStr r.location
    <;> by_cases h3 : truthyStr r.company_name
    <;> by_cases h4 : truthyStr r.feedback <;> simp [h1, h2, h3, h4]

lemma merge_intent_feedback (s : FlowState) (r : RouterIntent) :
    (merge_intent s r).feedback
      = if truthyStr r.feedback then r.feedback else s.feedback := by
  unfold merge_intent
  by_cases h1 : truthyStr r.job_role <;> by_cases h2 : truthyStr r.location
    <;> by_cases h3 : truthyStr r.company_name
    <;> by_cases h4 : truthyStr r.feedback <;> simp [h1, h2, h3, h4]

lemma merge_intent_message_history (s : FlowState) (r : RouterIntent) :
    (merge_intent s r).message_history = s.message_history := by
  unfold merge_intent
  by_cases h1 : truthyStr r.job_role <;> by_cases h2 : truthyStr r.location
    <;> by_cases h3 : truthyStr r.company_name
    <;> by_cases h4 : truthyStr r.feedback <;> simp [h1, h2, h3, h4]

lemma merge_preserves_truthy_job_role (s : FlowState) (r : RouterIntent)
    (h : truthyStr s.job_role = true) :
    truthyStr (merge_intent s r).job_role = true := by
  rw [merge_intent_job_role]
  by_cases hr : truthyStr r.job_role <;> simp [hr, h]

lemma merge_preserves_truthy_location (s : FlowState) (r : RouterIntent)
    (h : truthyStr s.location = true) :
    truthyStr (merge_intent s r).location = true := by
  rw [merge_intent_location]
  by_cases hr : truthyStr r.location <;> simp [hr, h]

lemma merge_preserves_truthy_company_name (s : FlowState) (r : RouterIntent)
    (h : truthyStr s.company_name = true) :
    truthyStr (merge_intent s r).company_name = true := by
  rw [merge_intent_company_name]
  by_cases hr : truthyStr r.company_name <;> simp [hr, h]

lemma merge_preserves_truthy_feedback (s : FlowState) (r : RouterIntent)
    (h : truthyStr s.feedback = true) :
    truthyStr (merge_intent s r).feedback = true := by
  rw [merge_intent_feedback]
  by_cases hr : truthyStr r.feedback <;> simp [hr, h]

lemma foldl_merge_truthy_job_role (rs : List RouterIntent) (s : FlowState)
    (h : truthyStr s.job_role = true) :
    truthyStr ((rs.foldl merge_intent s).job_role) = true := by
  induction rs generalizing s with
  | nil => exact h
  | cons r rs ih => exact ih _ (merge_preserves_truthy_job_role s r h)

lemma foldl_merge_truthy_location (rs : List RouterIntent) (s : FlowState)
    (h : truthyStr s.location = true) :
    truthyStr ((rs.foldl merge_intent s).location) = true := by
  induction rs generalizing s with
  | nil => exact h
  | cons r rs ih => exact ih _ (merge_preserves_truthy_location s r h)

lemma foldl_merge_truthy_company_name (rs : List RouterIntent) (s : FlowState)
    (h : truthyStr s.company_name = true) :
    truthyStr ((rs.foldl merge_intent s).company_name) = true := by
  induction rs generalizing s with
  | nil => exact h
  | cons r rs ih => exact ih _ (merge_preserves_truthy_company_name s r h)

lemma foldl_merge_truthy_feedback (rs : List RouterIntent) (s : FlowState)
    (h : truthyStr s.feedback = true) :
    truthyStr ((rs.foldl merge_intent s).feedback) = true := by
  induction rs generalizing s with
  | nil => exact h
  | cons r rs ih => exact ih _ (merge_preserves_truthy_feedback s r h)

/-! ### The claims -/

/-- C1.  Merge monotonicity: on every successful turn `routing_intent`
updates the state exactly by `merge_intent`; for each collected field
(`job_role`, `location`, `company_name`, `feedback`) a truthy (non-empty)
classifier value overwrites the stored one and a falsy (`None`/empty)
value leaves it untouched; hence over any sequence of merged turns a field
that is non-empty stays non-empty. -/
theorem C1_merge_monotonicity (s : FlowState) (r : RouterIntent)
    (rs : List RouterIntent) :
    routing_intent s (Except.ok r) = (merge_intent s r, Except.ok r.user_intent)
    ∧ ((truthyStr r.job_role = true → (merge_intent s r).job_role = r.job_role)
      ∧ (truthyStr r.job_role = false → (merge_intent s r).job_role = s.job_role))
    ∧ ((truthyStr r.location = true → (merge_intent s r).location = r.location)
      ∧ (truthyStr r.location = false → (merge_intent s r).location = s.location))
    ∧ ((truthyStr r.company_name = true →
          (merge_intent s r).company_name = r.company_name)
      ∧ (truthyStr r.company_name = false →
          (merge_intent s r).company_name = s.company_name))
    ∧ ((truthyStr r.feedback = true → (merge_intent s r).feedback = r.feedback)
      ∧ (truthyStr r.feedback = false → (merge_intent s r).feedback = s.feedback))
    ∧ (truthyStr s.job_role = true →
        truthyStr ((rs.foldl merge_intent s).job_role) = true)
    ∧ (truthyStr s.location = true →
        truthyStr ((rs.foldl merge_intent s).location) = true)
    ∧ (truthyStr s.company_name = true →
        truthyStr ((rs.foldl merge_intent s).company_name) = true)
    ∧ (truthyStr s.feedback = true →
        truthyStr ((rs.foldl merge_intent s).feedback) = true) := by
  refine ⟨rfl, ⟨?_, ?_⟩, ⟨?_, ?_⟩, ⟨?_, ?_⟩, ⟨?_, ?_⟩, ?_, ?_, ?_, ?_⟩
  · intro h; rw [merge_intent_job_role, h]; rfl
  · intro h; rw [merge_intent_job_role, h]; rfl
  · intro h; rw [merge_intent_location, h]; rfl
  · intro h; rw [merge_intent_location, h]; rfl
  · intro h; rw [merge_intent_company_name, h]; rfl
  · intro h; rw [merge_intent_company_name, h]; rfl
  · intro h; rw [merge_intent_feedback, h]; rfl
  · intro h; rw [merge_intent_feedback, h]; rfl
  · exact foldl_merge_truthy_job_role rs s
  · exact foldl_merge_truthy_location rs s
  · exact foldl_merge_truthy_company_name rs s
  · exact foldl_merge_truthy_feedback rs s

/-- Witness for C1: a state that already knows `job_role = "Engineer"`
run through a turn returning an empty `job_role` and a turn returning a
new non-empty one keeps a non-empty `job_role`. -/
theorem C1_merge_monotonicity_witness :
    truthyStr (FlowState.mk "hi" [] (some "Engineer") none none none none).job_role
        = true
    ∧ truthyStr
        (([RouterIntent.mk UserIntent.conversation (some "") none none none "r1",
           RouterIntent.mk UserIntent.conversation (some "Nurse") none none none "r2"
          ].foldl merge_intent
            (FlowState.mk "hi" [] (some "Engineer") none none none none)).job_role)
        = true :=
  ⟨rfl,
   (C1_merge_monotonicity
      (FlowState.mk "hi" [] (some "Engineer") none none none none)
      (RouterIntent.mk UserIntent.conversation none none none none "r0")
      [RouterIntent.mk UserIntent.conversation (some "") none none none "r1",
       RouterIntent.mk UserIntent.conversation (some "Nurse") none none none "r2"]
    ).2.2.2.2.2.1 rfl⟩

/-- C4.  Classification failure atomicity: when the classifier call fails
(the `llm.call` exception, raised before any of the merge lines runs,
propagates), `routing_intent` leaves the `FlowState` unchanged — no
partial merge — and the turn ends with the error, not a fabricated
intent. -/
theorem C4_classification_failure_atomicity (s : FlowState)
    (e : ClassificationError) :
    routing_intent s (Except.error e) = (s, Except.error e) := rfl

/-- C8.  Append-only history: every flow operation changes
`message_history` only by appending via `add_message`; the old history is
always a prefix, so length never decreases and order equals append
order. -/
theorem C8_append_only_history (s : FlowState)
    (role content now response : String)
    (resp : Except ClassificationError RouterIntent) :
    (add_message s role content now).message_history
        = s.message_history ++ [Message.mk role content now]
    ∧ (starting_flow s now).1.message_history
        = s.message_history
          ++ (if s.user_message.isEmpty then []
              else [Message.mk "user" s.user_message now])
    ∧ (routing_intent s resp).1.message_history = s.message_history
    ∧ (follow_up_conversation s response now).1.message_history
        = s.message_history ++ [Message.mk "assistant" response now]
    ∧ (handle_job_creation s response now).1.message_history
        = s.message_history ++ [Message.mk "assistant" response now]
    ∧ (handle_refinement s response now).1.message_history
        = s.message_history ++ [Message.mk "assistant" response now] := by
  refine ⟨rfl, ?_, ?_, rfl, rfl, rfl⟩
  · by_cases h : s.user_message.isEmpty <;> simp [starting_flow, add_message, h]
  · cases resp with
    | error e => rfl
    | ok r => exact merge_intent_message_history s r

/-- C10.  Empty-message edge: `starting_flow` appends a user message
exactly when `user_message` is non-empty; on the empty string the state is
returned untouched. -/
theorem C10_empty_message_edge (s : FlowState) (now : String) :
    (s.user_message = "" → (starting_flow s now).1 = s)
    ∧ (s.user_message ≠ "" →
        (starting_flow s now).1.message_history
          = s.message_history ++ [Message.mk "user" s.user_message now]) := by
  constructor
  · intro h
    have hem : s.user_message.isEmpty = true := by rw [h]; rfl
    simp [starting_flow, hem]
  · intro h
    have hne : s.user_message.isEmpty = false := by
      cases hem : s.user_message.isEmpty
      · rfl
      · exact absurd ((String.isEmpty_iff s.user_message).mp hem) h
    simp [starting_flow, add_message, hne]

/-- Witness for C10: the empty message appends nothing; `"hi"` appends one
user message. -/
theorem C10_empty_message_edge_witness :
    ((FlowState.mk "" [] none none none none none).user_message = ""
      ∧ (starting_flow (FlowState.mk "" [] none none none none none) "t0").1
          = FlowState.mk "" [] none none none none none)
    ∧ ((FlowState.mk "hi" [] none none none none none).user_message ≠ ""
      ∧ (starting_flow (FlowState.mk "hi" [] none none none none none) "t0").1.message_history
          = [] ++ [Message.mk "user" "hi" "t0"]) :=
  ⟨⟨rfl,
    (C10_empty_message_edge (FlowState.mk "" [] none none none none none) "t0").1
      rfl⟩,
   ⟨by decide,
    (C10_empty_message_edge (FlowState.mk "hi" [] none none none none none) "t0").2
      (by decide)⟩⟩

/-- C6.  Configuration fail-fast: when `CRW_API_URL` or `CRW_API_TOKEN` is
missing (absent from both secret sources, or empty), `api_request`
surfaces a configuration error, and the error is the same for every
network oracle — so no network request was issued, nothing is retried and
nothing is defaulted. -/
theorem C6_configuration_fail_fast (cfg : Config) (endpoint : String)
    (method : Method) (data : Option Json)
    (h : _get_secret cfg "CRW_API_URL" = none
      ∨ _get_secret cfg "CRW_API_URL" = some ""
      ∨ _get_secret cfg "CRW_API_TOKEN" = none
      ∨ _get_secret cfg "CRW_API_TOKEN" = some "") :
    ∃ e : ConfigurationError, ∀ net : Net,
      api_request cfg endpoint method data net = Except.error e := by
  cases hu : _api_url cfg with
  | error e0 =>
    exact ⟨e0, fun net => by unfold api_request; rw [hu]⟩
  | ok base =>
    cases ht : _headers cfg with
    | error e1 =>
      exact ⟨e1, fun net => by unfold api_request; rw [hu, ht]⟩
    | ok hdrs =>
      exfalso
      have hb : ("" : String).isEmpty = true := rfl
      rcases h with h | h | h | h
      · unfold _api_url at hu; rw [h] at hu; exact Except.noConfusion hu
      · unfold _api_url at hu; rw [h] at hu; simp [hb] at hu
      · unfold _headers at ht; rw [h] at ht; exact Except.noConfusion ht
      · unfold _headers at ht; rw [h] at ht; simp [hb] at ht

/-- Witness for C6: with both secret sources empty, a kickoff-shaped call
fails with the same configuration error under every network oracle. -/
theorem C6_configuration_fail_fast_witness :
    _get_secret (Config.mk [] []) "CRW_API_URL" = none
    ∧ ∃ e : ConfigurationError, ∀ net : Net,
        api_request (Config.mk [] []) "kickoff" Method.POST none net
          = Except.error e :=
  ⟨rfl,
   C6_configuration_fail_fast (Config.mk [] []) "kickoff" Method.POST none
     (Or.inl rfl)⟩

/-- C5.  Transport-failure synthesis: with the client configured, a poll
whose HTTP request fails (the oracle answers `none`, i.e. a
`RequestException` was raised) does not propagate the failure: it returns
the synthesized `{state: "ERROR", result: None, last_executed_task: None}`
status, and `"ERROR"` is distinct from the worker's own `"FAILURE"`. -/
theorem C5_transport_failure_synthesis (cfg : Config) (kid base : String)
    (hdrs : List (String × String)) (net : Net)
    (hu : _api_url cfg = Except.ok base)
    (hh : _headers cfg = Except.ok hdrs)
    (hnet : net.respond Method.GET (base ++ "/" ++ ("status/" ++ kid)) none
      = none) :
    poll_status cfg kid net = Except.ok pollErrorStatus
    ∧ pollErrorStatus.state = Json.str "ERROR"
    ∧ pollErrorStatus.result = none
    ∧ pollErrorStatus.last_executed_task = none
    ∧ Json.str "ERROR" ≠ Json.str "FAILURE" := by
  refine ⟨?_, rfl, rfl, rfl, by simp⟩
  unfold poll_status api_request
  rw [hu, hh]
  dsimp only
  rw [hnet]
  rfl

/-- Witness for C5: a configured client whose network always fails yields
the synthesized ERROR status. -/
theorem C5_transport_failure_synthesis_witness :
    _api_url (Config.mk [("CRW_API_URL", "https://api.example.com/"),
                         ("CRW_API_TOKEN", "tok")] [])
        = Except.ok "https://api.example.com"
    ∧ poll_status (Config.mk [("CRW_API_URL", "https://api.example.com/"),
                              ("CRW_API_TOKEN", "tok")] [])
        "k-1" (Net.mk fun _ _ _ => none)
      = Except.ok pollErrorStatus :=
  ⟨rfl,
   (C5_transport_failure_synthesis
      (Config.mk [("CRW_API_URL", "https://api.example.com/"),
                  ("CRW_API_TOKEN", "tok")] [])
      "k-1" "https://api.example.com"
      [("Authorization", "Bearer tok"), ("Content-Type", "application/json")]
      (Net.mk fun _ _ _ => none) rfl rfl rfl).1⟩

/-- C7 counterexample: the request body built by `kickoff_research` keys
the conversation id as `"id"`, not `"conversation_id"`, and the returned
id is read from `"kickoff_id"`, not `"job_id"`: a gateway response
`{"job_id": "j-1"}` yields no id at all. -/
theorem C7_kickoff_contract_counterexample :
    kickoff_payload "hello" "chat-1"
      ≠ Json.obj [("inputs", Json.obj [("user_message", Json.str "hello"),
                                       ("conversation_id", Json.str "chat-1")])]
    ∧ kickoff_research
        (Config.mk [("CRW_API_URL", "https://api.example.com"),
                    ("CRW_API_TOKEN", "tok")] [])
        "hello" "chat-1"
        (Net.mk fun _ _ _ => some [("job_id", Json.str "j-1")])
      = Except.ok none :=
  ⟨by simp [kickoff_payload], rfl⟩

/-- C7 amended.  Kickoff contract: the body sent is
`{inputs: {user_message: text, id: text}}`; `kickoff_research` performs a
single POST of that body to `<base>/kickoff` (its outcome depends on the
oracle at that one request only, so no further call — in particular no
completion wait — is observed); the returned id is the `kickoff_id` field
of a truthy response object when present, else `None` (also on transport
failure). -/
theorem C7_kickoff_contract (cfg : Config) (m c base : String)
    (hdrs : List (String × String)) (net : Net)
    (hu : _api_url cfg = Except.ok base)
    (hh : _headers cfg = Except.ok hdrs) :
    kickoff_payload m c
      = Json.obj [("inputs", Json.obj [("user_message", Json.str m),
                                       ("id", Json.str c)])]
    ∧ (∀ net2 : Net,
        net2.respond Method.POST (base ++ "/" ++ "kickoff")
            (some (kickoff_payload m c))
          = net.respond Method.POST (base ++ "/" ++ "kickoff")
              (some (kickoff_payload m c)) →
        _api_url cfg = Except.ok base → _headers cfg = Except.ok hdrs →
        kickoff_research cfg m c net2 = kickoff_research cfg m c net)
    ∧ (∀ fs v, net.respond Method.POST (base ++ "/" ++ "kickoff")
            (some (kickoff_payload m c)) = some fs →
        fs.isEmpty = false → dictGet fs "kickoff_id" = some v →
        kickoff_research cfg m c net = Except.ok (some v))
    ∧ (net.respond Method.POST (base ++ "/" ++ "kickoff")
            (some (kickoff_payload m c)) = none →
        kickoff_research cfg m c net = Except.ok none) := by
  refine ⟨rfl, ?_, ?_, ?_⟩
  · intro net2 hsame _ _
    unfold kickoff_research api_request
    rw [hu, hh]
    dsimp only
    rw [hsame]
  · intro fs v hresp hfs hid
    unfold kickoff_research api_request
    rw [hu, hh]
    dsimp only
    rw [hresp]
    simp [hfs, hid]
  · intro hresp
    unfold kickoff_research api_request
    rw [hu, hh]
    dsimp only
    rw [hresp]

/-- Witness for C7 (amended): a configured client against a gateway
answering `{"kickoff_id": "k-9"}` returns exactly that id. -/
theorem C7_kickoff_contract_witness :
    _api_url (Config.mk [("CRW_API_URL", "https://api.example.com"),
                         ("CRW_API_TOKEN", "tok")] [])
        = Except.ok "https://api.example.com"
    ∧ kickoff_research
        (Config.mk [("CRW_API_URL", "https://api.example.com"),
                    ("CRW_API_TOKEN", "tok")] [])
        "hello" "chat-1"
        (Net.mk fun _ _ _ => some [("kickoff_id", Json.str "k-9")])
      = Except.ok (some (Json.str "k-9")) :=
  ⟨rfl,
   (C7_kickoff_contract
      (Config.mk [("CRW_API_URL", "https://api.example.com"),
                  ("CRW_API_TOKEN", "tok")] [])
      "hello" "chat-1" "https://api.example.com"
      [("Authorization", "Bearer tok"), ("Content-Type", "application/json")]
      (Net.mk fun _ _ _ => some [("kickoff_id", Json.str "k-9")])
      rfl rfl).2.2.1
     [("kickoff_id", Json.str "k-9")] (Json.str "k-9") rfl rfl rfl⟩

/-- C2 counterexample: the empty string is a string-typed raw result on
SUCCESS, yet no decode is attempted and nothing is wrapped (the truthiness
guard skips it): the code returns `result = None`, where the claimed rule
(decode, else wrap) would produce `{"response": ""}`. -/
theorem C2_result_normalization_counterexample :
    (poll_status_core (some [("state", Json.str "SUCCESS"),
                             ("result", Json.str "")])).result = none
    ∧ (match json_loads "" with
       | some v => some v
       | none => some (Json.obj [("response", Json.str "")]))
      = some (Json.obj [("response", Json.str "")]) :=
  ⟨rfl, rfl⟩

/-- C2 amended.  Result normalization for non-empty strings: on SUCCESS
with a non-empty string-typed raw result, `poll_status` JSON-decodes it,
returning the parsed value on success and `{"response": raw}` on decode
failure; concretely, the serialized and the structured form of
`{"response": "x"}` yield the same result, and `"plain text"` yields
`{"response": "plain text"}`.  (The empty string is skipped by the
truthiness guard and yields `result = None`.) -/
theorem C2_result_normalization (fs : List (String × Json)) (s : String)
    (hfs : fs.isEmpty = false)
    (hstate : dictGet fs "state" = some (Json.str "SUCCESS"))
    (hres : dictGet fs "result" = some (Json.str s))
    (hs : s ≠ "") :
    (poll_status_core (some fs)).result
      = (match json_loads s with
         | some v => some v
         | none => some (Json.obj [("response", Json.str s)]))
    ∧ (poll_status_core (some [("state", Json.str "SUCCESS"),
          ("result", Json.str "\x7b\"response\": \"x\"\x7d")])).result
        = (poll_status_core (some [("state", Json.str "SUCCESS"),
            ("result", Json.obj [("response", Json.str "x")])])).result
    ∧ (poll_status_core (some [("state", Json.str "SUCCESS"),
          ("result", Json.str "plain text")])).result
        = some (Json.obj [("response", Json.str "plain text")]) := by
  have hse : s.isEmpty = false := by
    cases hem : s.isEmpty
    · rfl
    · exact absurd ((String.isEmpty_iff s).mp hem) hs
  refine ⟨?_, rfl, rfl⟩
  unfold poll_status_core
  simp only [hfs, hstate, hres, Option.getD_some, Bool.false_eq_true, if_false]
  simp [Json.isStr, pyTruthy, hse]

/-- Witness for C2 (amended): the instantiation at the unparseable
`"plain text"` result. -/
theorem C2_result_normalization_witness :
    ([("state", Json.str "SUCCESS"),
      ("result", Json.str "plain text")].isEmpty = false)
    ∧ ("plain text" : String) ≠ ""
    ∧ (poll_status_core (some [("state", Json.str "SUCCESS"),
          ("result", Json.str "plain text")])).result
        = (match json_loads "plain text" with
           | some v => some v
           | none => some (Json.obj [("response", Json.str "plain text")])) :=
  ⟨rfl, by decide,
   (C2_result_normalization
      [("state", Json.str "SUCCESS"), ("result", Json.str "plain text")]
      "plain text" rfl rfl rfl (by decide)).1⟩

/-- C3 counterexample: with `response` absent and `chat_response` present
but empty, the Python `or` chain returns the empty value itself, while the
claimed rule (first non-empty alias, else absent/None) returns `None`. -/
theorem C3_alias_priority_counterexample :
    extract_response (some [("chat_response", Json.str "")])
      = some (Json.str "")
    ∧ extract_response_spec (some [("chat_response", Json.str "")]) = none :=
  ⟨rfl, rfl⟩

/-- C3 amended.  Alias priority: `extract_response` returns the value of
`response` when that alias is non-empty (so `response` wins whenever both
aliases hold non-empty values); when `response` is absent or empty it
returns whatever is stored under `chat_response` — `None` when that alias
is absent, but the stored (possibly empty) value itself when present; a
`None` or empty input yields `None`. -/
theorem C3_alias_priority (fs : List (String × Json)) (v : Json) :
    extract_response none = none
    ∧ extract_response (some []) = none
    ∧ (dictGet fs "response" = some v → pyTruthy v = true →
        fs.isEmpty = false → extract_response (some fs) = some v)
    ∧ (dictGet fs "response" = some v → pyTruthy v = false →
        fs.isEmpty = false →
        extract_response (some fs) = dictGet fs "chat_response")
    ∧ (dictGet fs "response" = none → fs.isEmpty = false →
        extract_response (some fs) = dictGet fs "chat_response") := by
  refine ⟨rfl, rfl, ?_, ?_, ?_⟩
  · intro hr hv hfs
    unfold extract_response
    simp only [hfs, hr, hv, Bool.false_eq_true, if_false, if_true]
  · intro hr hv hfs
    unfold extract_response
    simp only [hfs, hr, hv, Bool.false_eq_true, if_false]
  · intro hr hfs
    unfold extract_response
    simp only [hfs, hr, Bool.false_eq_true, if_false]

/-- Witness for C3 (amended): with both aliases non-empty, `response`
wins. -/
theorem C3_alias_priority_witness :
    dictGet [("response", Json.str "a"), ("chat_response", Json.str "b")]
        "response" = some (Json.str "a")
    ∧ pyTruthy (Json.str "a") = true
    ∧ extract_response (some [("response", Json.str "a"),
                              ("chat_response", Json.str "b")])
        = some (Json.str "a") :=
  ⟨rfl, rfl,
   (C3_alias_priority [("response", Json.str "a"),
                       ("chat_response", Json.str "b")]
      (Json.str "a")).2.2.1 rfl rfl rfl⟩

/-- C9.  SUCCESS without payload: on a SUCCESS status whose raw result is
absent, falsy (e.g. the empty string or an empty list), or of a type other
than string or dict (e.g. a non-empty list or a number), `poll_status`
returns `result = None`. -/
theorem C9_success_without_payload (fs : List (String × Json)) (raw : Json)
    (hfs : fs.isEmpty = false)
    (hstate : dictGet fs "state" = some (Json.str "SUCCESS")) :
    (dictGet fs "result" = none → (poll_status_core (some fs)).result = none)
    ∧ (dictGet fs "result" = some raw → pyTruthy raw = false →
        (poll_status_core (some fs)).result = none)
    ∧ (dictGet fs "result" = some raw → pyTruthy raw = true →
        (∀ t, raw ≠ Json.str t) → (∀ l, raw ≠ Json.obj l) →
        (poll_status_core (some fs)).result = none) := by
  refine ⟨?_, ?_, ?_⟩
  · intro hres
    unfold poll_status_core
    simp only [hfs, hres, Bool.false_eq_true, if_false]
  · intro hres hraw
    unfold poll_status_core
    simp only [hfs, hstate, hres, Option.getD_some, Bool.false_eq_true,
      if_false, hraw, Bool.and_false, if_neg]
  · intro hres hraw hstr hobj
    unfold poll_status_core
    simp only [hfs, hstate, hres, Option.getD_some, Bool.false_eq_true, if_false]
    cases raw with
    | str t => exact absurd rfl (hstr t)
    | obj l => exact absurd rfl (hobj l)
    | null => simp [pyTruthy] at hraw
    | bool b => simp [Json.isStr, hraw]
    | num n => simp [Json.isStr, hraw]
    | arr xs => simp [Json.isStr, hraw]

/-- Witness for C9: a SUCCESS status whose result is a non-empty list
(truthy, neither string nor dict) yields `result = None`. -/
theorem C9_success_without_payload_witness :
    ([("state", Json.str "SUCCESS"),
      ("result", Json.arr [Json.num 1])].isEmpty = false)
    ∧ dictGet [("state", Json.str "SUCCESS"),
               ("result", Json.arr [Json.num 1])] "result"
        = some (Json.arr [Json.num 1])
    ∧ pyTruthy (Json.arr [Json.num 1]) = true
    ∧ (poll_status_core (some [("state", Json.str "SUCCESS"),
          ("result", Json.arr [Json.num 1])])).result = none :=
  ⟨rfl, rfl, rfl,
   (C9_success_without_payload
      [("state", Json.str "SUCCESS"), ("result", Json.arr [Json.num 1])]
      (Json.arr [Json.num 1]) rfl rfl).2.2 rfl rfl
      (fun _ h => Json.noConfusion h) (fun _ h => Json.noConfusion h)⟩

end DeepResearch
